import Mathlib

/-!
# Verified model of the SurgicalPrep spaced-repetition scheduler

Shallow embedding of the SM-2 style progress update implemented in
`app/api/endpoints/quiz.py` (`update_progress`, `submit_answer`,
`record_flashcard_result`, `update_bookmark`) over the record type
`UserInstrumentProgress` from `app/db/models.py`.

Modelling conventions:
* Python `float` fields (`ease_factor`) are modelled with exact rationals `ℚ`;
  the increments `0.1`, `0.2` and the bound `1.3` are the exact decimal values.
* Timestamps (`datetime`) are modelled as integers counting microseconds
  (Python `datetime` resolution); adding `timedelta(days=d)` adds
  `d * 86400000000` microseconds.
* The source function `update_progress` calls `datetime.now(timezone.utc)`
  twice: once for `last_studied_at` (quiz.py line 222) and once for
  `next_review_at` (quiz.py line 242).  Each clock read becomes an explicit
  input of the embedded function (`now1`, `now2`), in source order.
* Python `int(x)` on a float truncates toward zero; `pyInt` below is that
  conversion on `ℚ`.
* A database row that may or may not exist is an `Option UserInstrumentProgress`;
  the keyed table is a function from `(user_id, instrument_id)` to that option.
-/

namespace SurgicalPrep

/-- Microseconds in one day: `timedelta(days=1)` at `datetime` resolution. -/
def usPerDay : ℤ := 86400000000

/-- Python `int()` applied to a rational: truncation toward zero. -/
def pyInt (q : ℚ) : ℤ :=
  if q < 0 then -⌊-q⌋ else ⌊q⌋

/-- The `user_instrument_progress` row (`app/db/models.py`, class
`UserInstrumentProgress`).  Timestamps are integer microsecond counts;
`next_review_at` and `last_studied_at` are nullable. -/
structure UserInstrumentProgress where
  user_id : String
  instrument_id : String
  ease_factor : ℚ
  interval_days : ℤ
  repetitions : ℤ
  next_review_at : Option ℤ
  times_studied : ℤ
  times_correct : ℤ
  last_studied_at : Option ℤ
  is_bookmarked : Bool
deriving DecidableEq, Repr

/-- A fresh `UserInstrumentProgress(user_id=..., instrument_id=...)` with the
column defaults of `app/db/models.py`: `ease_factor=2.5`, `interval_days=1`,
`repetitions=0`, `times_studied=0`, `times_correct=0`,
`is_bookmarked=False`, nullable timestamps unset. -/
def defaultProgress (user_id instrument_id : String) : UserInstrumentProgress where
  user_id := user_id
  instrument_id := instrument_id
  ease_factor := 2.5
  interval_days := 1
  repetitions := 0
  next_review_at := none
  times_studied := 0
  times_correct := 0
  last_studied_at := none
  is_bookmarked := false

/-- The mutation body of `update_progress` (quiz.py lines 221-242), once the
record to mutate is fixed.  `now1` is the value returned by the
`datetime.now(timezone.utc)` call on line 222, `now2` the one on line 242. -/
def update_progress (p : UserInstrumentProgress) (is_correct : Bool)
    (now1 now2 : ℤ) : UserInstrumentProgress :=
  let p := { p with
    times_studied := p.times_studied + 1
    last_studied_at := some now1 }
  let p :=
    if is_correct then
      let p := { p with
        times_correct := p.times_correct + 1
        repetitions := p.repetitions + 1 }
      let p :=
        if p.repetitions = 1 then
          { p with interval_days := 1 }
        else if p.repetitions = 2 then
          { p with interval_days := 6 }
        else
          { p with interval_days := pyInt ((p.interval_days : ℚ) * p.ease_factor) }
      { p with ease_factor := max 1.3 (p.ease_factor + 0.1) }
    else
      { p with
        repetitions := 0
        interval_days := 1
        ease_factor := max 1.3 (p.ease_factor - 0.2) }
  { p with next_review_at := some (now2 + usPerDay * p.interval_days) }

/-- Endpoint-level `update_progress` (quiz.py lines 205-242): the row
for the key is loaded (`stored`), default-constructed if absent (lines
214-219), then mutated. -/
def update_progress_store (stored : Option UserInstrumentProgress)
    (user_id instrument_id : String) (is_correct : Bool)
    (now1 now2 : ℤ) : UserInstrumentProgress :=
  update_progress (stored.getD (defaultProgress user_id instrument_id))
    is_correct now1 now2

/-- Endpoint-level `update_bookmark` (quiz.py lines 378-402): the row
is loaded, default-constructed if absent (lines 392-397), and only
`is_bookmarked` is assigned (line 399). -/
def update_bookmark_store (stored : Option UserInstrumentProgress)
    (user_id instrument_id : String)
    (is_bookmarked : Bool) : UserInstrumentProgress :=
  { stored.getD (defaultProgress user_id instrument_id) with
    is_bookmarked := is_bookmarked }

/-- The keyed progress table: at most one row per (user_id, instrument_id). -/
def ProgressTable := String → String → Option UserInstrumentProgress

/-- Effect of the answer-grading endpoint on the whole table: the row for the
graded pair is replaced by the updated record, every other row is untouched. -/
def grade_endpoint (t : ProgressTable) (user_id instrument_id : String)
    (is_correct : Bool) (now1 now2 : ℤ) : ProgressTable :=
  fun u i =>
    if u = user_id ∧ i = instrument_id then
      some (update_progress_store (t user_id instrument_id)
        user_id instrument_id is_correct now1 now2)
    else t u i

/-- Effect of the bookmark endpoint on the whole table. -/
def bookmark_endpoint (t : ProgressTable) (user_id instrument_id : String)
    (is_bookmarked : Bool) : ProgressTable :=
  fun u i =>
    if u = user_id ∧ i = instrument_id then
      some (update_bookmark_store (t user_id instrument_id)
        user_id instrument_id is_bookmarked)
    else t u i

/-- Outcome computed by `submit_answer`, quiz.py line 180:
`is_correct = data.answer.lower().strip() == question["correct_answer"].lower().strip()`. -/
def submit_answer_is_correct (answer correct_answer : String) : Bool :=
  answer.toLower.trim == correct_answer.toLower.trim

/-- Outcome computed by `record_flashcard_result`, quiz.py line 372:
`is_correct = data.result == "got_it"`. -/
def flashcard_is_correct (result : String) : Bool :=
  result == "got_it"

/-- Spec wording for the quiz outcome: case-insensitive, whitespace-trimmed
equality of the submitted answer with the stored correct answer. -/
def spec_quiz_outcome (answer correct_answer : String) : Bool :=
  decide (answer.toLower.trim = correct_answer.toLower.trim)

/-- Spec wording for the flashcard outcome: the result string equals
"got_it". -/
def spec_flashcard_outcome (result : String) : Bool :=
  decide (result = "got_it")

/-- Folding a whole sequence of graded attempts over a record; each step is
one `update_progress` call with its outcome and its two clock readings. -/
def gradeSeq (p : UserInstrumentProgress)
    (steps : List (Bool × ℤ × ℤ)) : UserInstrumentProgress :=
  steps.foldl (fun acc s => update_progress acc s.1 s.2.1 s.2.2) p

/-- Iterated grading: `n` consecutive correct answers (clock readings fixed
at 0; they do not influence the numeric scheduling fields). -/
def gradeCorrectN (p : UserInstrumentProgress) : ℕ → UserInstrumentProgress
  | 0 => p
  | n + 1 => update_progress (gradeCorrectN p n) true 0 0

end SurgicalPrep

namespace SurgicalPrep

/-! ## General lemmas about a single `update_progress` call -/

/-- The scheduler never writes `is_bookmarked`. -/
theorem update_progress_is_bookmarked (p : UserInstrumentProgress) (c : Bool)
    (t1 t2 : ℤ) : (update_progress p c t1 t2).is_bookmarked = p.is_bookmarked := by
  cases c <;> simp only [update_progress] <;> split_ifs <;> rfl

/-- Lemma: `last_studied_at` is set to the first clock reading. -/
theorem update_progress_last_studied (p : UserInstrumentProgress) (c : Bool)
    (t1 t2 : ℤ) : (update_progress p c t1 t2).last_studied_at = some t1 := by
  cases c <;> simp only [update_progress] <;> split_ifs <;> rfl

/-- Lemma: `next_review_at` is the second clock reading plus the updated
interval, in days. -/
theorem update_progress_next_review (p : UserInstrumentProgress) (c : Bool)
    (t1 t2 : ℤ) : (update_progress p c t1 t2).next_review_at =
      some (t2 + usPerDay * (update_progress p c t1 t2).interval_days) := by
  cases c <;> simp only [update_progress] <;> split_ifs <;> rfl

/-- Lemma: both branches of the update end in `max 1.3 _`, so the resulting
ease factor is at least `1.3` for every input record. -/
theorem update_progress_ease_floor (p : UserInstrumentProgress) (c : Bool)
    (t1 t2 : ℤ) : (1.3 : ℚ) ≤ (update_progress p c t1 t2).ease_factor := by
  cases c <;> simp only [update_progress] <;> split_ifs <;>
    simpa using le_max_left (1.3 : ℚ) _

/-- Lemma: on a correct answer the ease factor grows by exactly `0.1`
whenever it already satisfies the documented floor. -/
theorem update_progress_ease_correct (p : UserInstrumentProgress)
    (t1 t2 : ℤ) (h : (1.3 : ℚ) ≤ p.ease_factor) :
    (update_progress p true t1 t2).ease_factor = p.ease_factor + 0.1 := by
  have hmax : max (1.3 : ℚ) (p.ease_factor + 0.1) = p.ease_factor + 0.1 :=
    max_eq_right (by linarith)
  simp only [update_progress]
  split_ifs <;> simpa using hmax

/-- Lemma: lifetime counters advance by one graded attempt. -/
theorem update_progress_times_studied (p : UserInstrumentProgress) (c : Bool)
    (t1 t2 : ℤ) : (update_progress p c t1 t2).times_studied = p.times_studied + 1 := by
  cases c <;> simp only [update_progress] <;> split_ifs <;> rfl

/-! ## Lemmas about sequences of graded attempts -/

/-- Lemma: the ease-factor floor is preserved by any sequence of graded
attempts. -/
theorem gradeSeq_ease_floor (steps : List (Bool × ℤ × ℤ))
    (p : UserInstrumentProgress) (h : (1.3 : ℚ) ≤ p.ease_factor) :
    (1.3 : ℚ) ≤ (gradeSeq p steps).ease_factor := by
  induction steps generalizing p with
  | nil => simpa [gradeSeq] using h
  | cons s rest ih =>
      simp only [gradeSeq, List.foldl_cons] at ih ⊢
      exact ih (update_progress p s.1 s.2.1 s.2.2)
        (update_progress_ease_floor p s.1 s.2.1 s.2.2)

/-- Lemma: starting at or above the floor, `n` consecutive correct answers
raise the ease factor by exactly `n` tenths. -/
theorem gradeCorrectN_ease (p : UserInstrumentProgress)
    (h : (1.3 : ℚ) ≤ p.ease_factor) (n : ℕ) :
    (gradeCorrectN p n).ease_factor = p.ease_factor + n * 0.1 := by
  induction n with
  | zero => simp [gradeCorrectN]
  | succ n ih =>
      have hn : (0 : ℚ) ≤ (n : ℚ) * 0.1 := by positivity
      have hf : (1.3 : ℚ) ≤ (gradeCorrectN p n).ease_factor := by
        rw [ih]; linarith
      rw [gradeCorrectN, update_progress_ease_correct _ 0 0 hf, ih]
      push_cast
      ring

/-! ## Claim theorems -/

/-- Record state after the spec scenario answers 1-3 (all correct, graded at
instants `T = 0`, `T + 1` day and `T + 7` days; the scheduling fields the
claim is about do not depend on the instants). -/
def c1_step3 : UserInstrumentProgress :=
  gradeSeq (defaultProgress "u" "i") [(true, 0, 0), (true, 1, 1), (true, 7, 7)]

/-- Record state after scenario answer 4 (incorrect, graded at `T + 23`
days). -/
def c1_step4 : UserInstrumentProgress :=
  update_progress c1_step3 false 23 23

/-- C1: from the default record, grading correct, correct, correct then
incorrect gives exactly the spec scenario values: after the third correct
answer `repetitions = 3`, `interval_days = 16`, `ease_factor = 2.8`; after
the fourth (incorrect) answer `repetitions = 0`, `interval_days = 1`,
`ease_factor = 2.6`, `times_studied = 4`, `times_correct = 3`. -/
theorem claim_C1_scenario :
    c1_step3.repetitions = 3 ∧ c1_step3.interval_days = 16 ∧
    c1_step3.ease_factor = 2.8 ∧
    c1_step4.repetitions = 0 ∧ c1_step4.interval_days = 1 ∧
    c1_step4.ease_factor = 2.6 ∧ c1_step4.times_studied = 4 ∧
    c1_step4.times_correct = 3 := by
  have h3 : c1_step3 =
      { user_id := "u", instrument_id := "i", ease_factor := 2.8,
        interval_days := 16, repetitions := 3,
        next_review_at := some (7 + usPerDay * 16), times_studied := 3,
        times_correct := 3, last_studied_at := some 7,
        is_bookmarked := false } := by
    norm_num [c1_step3, gradeSeq, update_progress, defaultProgress, pyInt]
  have h4 : c1_step4 =
      { user_id := "u", instrument_id := "i", ease_factor := 2.6,
        interval_days := 1, repetitions := 0,
        next_review_at := some (23 + usPerDay * 1), times_studied := 4,
        times_correct := 3, last_studied_at := some 23,
        is_bookmarked := false } := by
    rw [c1_step4, h3]
    norm_num [update_progress, pyInt]
  rw [h3, h4]
  norm_num

/-- Record of the spec ease-floor scenario: ease factor `1.4`. -/
def ef14_record : UserInstrumentProgress :=
  { defaultProgress "u" "i" with ease_factor := 1.4 }

/-- C5: starting from any record with `ease_factor ≥ 1.3`, every sequence of
grade calls keeps `ease_factor ≥ 1.3`; concretely, from `1.4` one incorrect
answer gives exactly `1.3` and a further incorrect answer keeps `1.3`. -/
theorem claim_C5_ease_floor (p : UserInstrumentProgress)
    (steps : List (Bool × ℤ × ℤ)) (h : (1.3 : ℚ) ≤ p.ease_factor) :
    (1.3 : ℚ) ≤ (gradeSeq p steps).ease_factor ∧
    (update_progress ef14_record false 0 0).ease_factor = 1.3 ∧
    (update_progress (update_progress ef14_record false 0 0) false 0 0).ease_factor
      = 1.3 := by
  refine ⟨gradeSeq_ease_floor steps p h, ?_, ?_⟩ <;>
    norm_num [update_progress, ef14_record, defaultProgress, pyInt]

/-- Witness for C5 at the default record and a one-step sequence. -/
theorem claim_C5_ease_floor_witness :
    (1.3 : ℚ) ≤ (defaultProgress "u" "i").ease_factor ∧
    ((1.3 : ℚ) ≤ (gradeSeq (defaultProgress "u" "i") [(false, 0, 0)]).ease_factor ∧
    (update_progress ef14_record false 0 0).ease_factor = 1.3 ∧
    (update_progress (update_progress ef14_record false 0 0) false 0 0).ease_factor
      = 1.3) :=
  ⟨by norm_num [defaultProgress],
   claim_C5_ease_floor (defaultProgress "u" "i") [(false, 0, 0)]
     (by norm_num [defaultProgress])⟩

/-- C6: grading never changes `is_bookmarked`, and the bookmark update on an
existing record changes only `is_bookmarked`, leaving `ease_factor`,
`interval_days`, `repetitions` and `next_review_at` untouched. -/
theorem claim_C6_bookmark_frame (p : UserInstrumentProgress) (c : Bool)
    (t1 t2 : ℤ) (u i : String) (b : Bool) :
    (update_progress p c t1 t2).is_bookmarked = p.is_bookmarked ∧
    (update_bookmark_store (some p) u i b).ease_factor = p.ease_factor ∧
    (update_bookmark_store (some p) u i b).interval_days = p.interval_days ∧
    (update_bookmark_store (some p) u i b).repetitions = p.repetitions ∧
    (update_bookmark_store (some p) u i b).next_review_at = p.next_review_at ∧
    (update_bookmark_store (some p) u i b).is_bookmarked = b :=
  ⟨update_progress_is_bookmarked p c t1 t2, rfl, rfl, rfl, rfl, rfl⟩

/-- C8: the outcome handed to the scheduler is exactly the specified one at
both call sites: case-insensitive whitespace-trimmed equality for quiz
answers, and equality with "got_it" for flashcard swipes. -/
theorem claim_C8_call_site_outcomes (a c r : String) :
    submit_answer_is_correct a c = spec_quiz_outcome a c ∧
    flashcard_is_correct r = spec_flashcard_outcome r := by
  constructor
  · by_cases h : a.toLower.trim = c.toLower.trim <;>
      simp [submit_answer_is_correct, spec_quiz_outcome, h]
  · by_cases h : r = "got_it" <;>
      simp [flashcard_is_correct, spec_flashcard_outcome, h]

/-- Record used to separate truncation from round-to-nearest: previous
interval `3`, ease factor `2.9`, streak `2` (so the next correct answer is
the third of the streak). -/
def c2_record : UserInstrumentProgress :=
  { defaultProgress "u" "i" with
    interval_days := 3, ease_factor := 2.9, repetitions := 2 }

/-- C2 counterexample: on the third consecutive correct answer from interval
`3` and ease `2.9`, the code stores `int(3 * 2.9) = int(8.7) = 8`, while the
claimed round-to-nearest of `8.7` is `9`. -/
theorem claim_C2_counterexample :
    (update_progress c2_record true 0 0).interval_days ≠
      round ((c2_record.interval_days : ℚ) * c2_record.ease_factor) ∧
    (update_progress c2_record true 0 0).interval_days = 8 ∧
    round ((c2_record.interval_days : ℚ) * c2_record.ease_factor) = 9 := by
  have h8 : (update_progress c2_record true 0 0).interval_days = 8 := by
    norm_num [update_progress, c2_record, defaultProgress, pyInt]
  have h9 : round ((c2_record.interval_days : ℚ) * c2_record.ease_factor) = 9 := by
    rw [round_eq]
    norm_num [c2_record, defaultProgress]
  refine ⟨?_, h8, h9⟩
  rw [h8, h9]
  norm_num

/-- C2 amended: for every correct answer whose post-increment streak is at
least `3`, the new interval is `previous_interval * ease_factor` (ease
before this update's `+0.1`) truncated toward zero by Python `int()`, which
for a nonnegative product is the floor — not rounded to the nearest
integer. -/
theorem claim_C2_amended (p : UserInstrumentProgress) (t1 t2 : ℤ)
    (h : 2 ≤ p.repetitions)
    (h0 : 0 ≤ (p.interval_days : ℚ) * p.ease_factor) :
    (update_progress p true t1 t2).interval_days =
      pyInt ((p.interval_days : ℚ) * p.ease_factor) ∧
    (update_progress p true t1 t2).interval_days =
      ⌊(p.interval_days : ℚ) * p.ease_factor⌋ := by
  have h1 : ¬ p.repetitions + 1 = 1 := by omega
  have h2 : ¬ p.repetitions + 1 = 2 := by omega
  have hpy : pyInt ((p.interval_days : ℚ) * p.ease_factor) =
      ⌊(p.interval_days : ℚ) * p.ease_factor⌋ := by
    rw [pyInt, if_neg (not_lt.mpr h0)]
  have hmain : (update_progress p true t1 t2).interval_days =
      pyInt ((p.interval_days : ℚ) * p.ease_factor) := by
    simp [update_progress, h1, h2]
  exact ⟨hmain, by rw [hmain, hpy]⟩

/-- Witness for the amended C2 at the concrete record above. -/
theorem claim_C2_amended_witness :
    2 ≤ c2_record.repetitions ∧
    0 ≤ (c2_record.interval_days : ℚ) * c2_record.ease_factor ∧
    ((update_progress c2_record true 0 0).interval_days =
      pyInt ((c2_record.interval_days : ℚ) * c2_record.ease_factor) ∧
    (update_progress c2_record true 0 0).interval_days =
      ⌊(c2_record.interval_days : ℚ) * c2_record.ease_factor⌋) :=
  ⟨by norm_num [c2_record, defaultProgress],
   by norm_num [c2_record, defaultProgress],
   claim_C2_amended c2_record 0 0 (by norm_num [c2_record, defaultProgress])
     (by norm_num [c2_record, defaultProgress])⟩

/-- C3 counterexample: `update_progress` has no `now` parameter; it reads the
wall clock internally (quiz.py lines 222 and 242).  Two independent calls
with the same starting record and outcome, whose internal clock reads return
different instants (here `0` and one day later), produce different result
records — so the result is not a function of the record and outcome alone,
refuting the claimed injected-clock purity of the code. -/
theorem claim_C3_counterexample :
    update_progress (defaultProgress "u" "i") true 0 0 ≠
      update_progress (defaultProgress "u" "i") true usPerDay usPerDay := by
  intro h
  have h2 := congrArg UserInstrumentProgress.last_studied_at h
  rw [update_progress_last_studied, update_progress_last_studied] at h2
  rw [Option.some_inj] at h2
  norm_num [usPerDay] at h2

/-- C3 amended: once the two internal `datetime.now` reads are passed as
explicit inputs, the update is a deterministic pure function: calls agreeing
on the starting record, the outcome and both clock readings produce
identical result records. -/
theorem claim_C3_amended (p q : UserInstrumentProgress) (c d : Bool)
    (t1 t2 u1 u2 : ℤ) (hp : p = q) (hc : c = d) (h1 : t1 = u1)
    (h2 : t2 = u2) :
    update_progress p c t1 t2 = update_progress q d u1 u2 := by
  rw [hp, hc, h1, h2]

/-- Witness for the amended C3 at concrete equal inputs. -/
theorem claim_C3_amended_witness :
    defaultProgress "u" "i" = defaultProgress "u" "i" ∧
    update_progress (defaultProgress "u" "i") true 0 0 =
      update_progress (defaultProgress "u" "i") true 0 0 :=
  ⟨rfl, claim_C3_amended (defaultProgress "u" "i") (defaultProgress "u" "i")
    true true 0 0 0 0 rfl rfl rfl rfl⟩

/-- Run of the grading update in which the second clock read returns one
microsecond after the first, as happens between quiz.py lines 222 and
242. -/
def c4_run : UserInstrumentProgress :=
  update_progress (defaultProgress "u" "i") true 0 1

/-- C4 counterexample: because `next_review_at` is computed from a second,
later `datetime.now` read, it differs from
`last_studied_at + interval_days` days: here `last_studied_at = 0`,
`interval_days = 1`, but `next_review_at = 1 + usPerDay ≠ 0 + usPerDay`. -/
theorem claim_C4_counterexample :
    c4_run.next_review_at ≠
      c4_run.last_studied_at.map (fun s => s + usPerDay * c4_run.interval_days) ∧
    c4_run.last_studied_at = some 0 ∧ c4_run.interval_days = 1 ∧
    c4_run.next_review_at = some (usPerDay + 1) := by
  have hl : c4_run.last_studied_at = some 0 :=
    update_progress_last_studied (defaultProgress "u" "i") true 0 1
  have hi : c4_run.interval_days = 1 := by
    norm_num [c4_run, update_progress, defaultProgress, pyInt]
  have hn : c4_run.next_review_at = some (usPerDay + 1) := by
    have := update_progress_next_review (defaultProgress "u" "i") true 0 1
    rw [c4_run, this]
    rw [show (update_progress (defaultProgress "u" "i") true 0 1).interval_days
          = 1 from hi]
    rw [Option.some_inj]
    ring
  refine ⟨?_, hl, hi, hn⟩
  rw [hl, hi, hn]
  norm_num [usPerDay]

/-- C4 amended: `last_studied_at` is the first clock reading and
`next_review_at` is the second clock reading plus `interval_days` days; in
particular, whenever the two readings return the same instant, the claimed
relation `next_review_at = last_studied_at + interval_days` days holds
exactly, for every record and either outcome. -/
theorem claim_C4_amended (p : UserInstrumentProgress) (c : Bool)
    (t1 t2 : ℤ) (h : t1 = t2) :
    (update_progress p c t1 t2).next_review_at =
      (update_progress p c t1 t2).last_studied_at.map
        (fun s => s + usPerDay * (update_progress p c t1 t2).interval_days) := by
  rw [update_progress_next_review, update_progress_last_studied, h]
  rfl

/-- Witness for the amended C4 with both clock reads at instant `0`. -/
theorem claim_C4_amended_witness :
    (0 : ℤ) = 0 ∧
    (update_progress (defaultProgress "u" "i") true 0 0).next_review_at =
      (update_progress (defaultProgress "u" "i") true 0 0).last_studied_at.map
        (fun s => s + usPerDay *
          (update_progress (defaultProgress "u" "i") true 0 0).interval_days) :=
  ⟨rfl, claim_C4_amended (defaultProgress "u" "i") true 0 0 rfl⟩

/-- The table with no progress rows at all. -/
def emptyTable : ProgressTable := fun _ _ => none

/-- C7 counterexample: the bookmark endpoint also creates a progress record.
Starting from a table with no row for ("u", "i"), a bookmark update — not a
graded attempt — materializes a default-initialized row with the bookmark
set, refuting the claim that only the first graded attempt creates a
record. -/
theorem claim_C7_counterexample :
    emptyTable "u" "i" = none ∧
    bookmark_endpoint emptyTable "u" "i" true "u" "i" =
      some { defaultProgress "u" "i" with is_bookmarked := true } := by
  constructor
  · rfl
  · rw [bookmark_endpoint, if_pos ⟨rfl, rfl⟩]
    rfl

/-- C7 amended: a progress record for a (user, item) pair is created lazily
by the first graded attempt or by the first bookmark update for that pair;
in both cases it starts from the default-initialized record with
`ease_factor = 2.5`, `interval_days = 1`, `repetitions = 0` and both
lifetime counters zero. -/
theorem claim_C7_amended (t : ProgressTable) (u i : String) (c b : Bool)
    (t1 t2 : ℤ) (h : t u i = none) :
    grade_endpoint t u i c t1 t2 u i =
      some (update_progress (defaultProgress u i) c t1 t2) ∧
    bookmark_endpoint t u i b u i =
      some { defaultProgress u i with is_bookmarked := b } ∧
    (defaultProgress u i).ease_factor = 2.5 ∧
    (defaultProgress u i).interval_days = 1 ∧
    (defaultProgress u i).repetitions = 0 ∧
    (defaultProgress u i).times_studied = 0 ∧
    (defaultProgress u i).times_correct = 0 := by
  refine ⟨?_, ?_, rfl, rfl, rfl, rfl, rfl⟩
  · rw [grade_endpoint, if_pos ⟨rfl, rfl⟩, update_progress_store, h]
    rfl
  · rw [bookmark_endpoint, if_pos ⟨rfl, rfl⟩, update_bookmark_store, h]
    rfl

/-- Witness for the amended C7 on the empty table. -/
theorem claim_C7_amended_witness :
    emptyTable "u" "i" = none ∧
    (grade_endpoint emptyTable "u" "i" true 0 0 "u" "i" =
      some (update_progress (defaultProgress "u" "i") true 0 0) ∧
    bookmark_endpoint emptyTable "u" "i" false "u" "i" =
      some { defaultProgress "u" "i" with is_bookmarked := false } ∧
    (defaultProgress "u" "i").ease_factor = 2.5 ∧
    (defaultProgress "u" "i").interval_days = 1 ∧
    (defaultProgress "u" "i").repetitions = 0 ∧
    (defaultProgress "u" "i").times_studied = 0 ∧
    (defaultProgress "u" "i").times_correct = 0) :=
  ⟨rfl, claim_C7_amended emptyTable "u" "i" true false 0 0 rfl⟩

/-- C9: with the ease floor satisfied, a correct answer adds exactly `0.1`
to the ease factor; over `n` consecutive correct answers the ease factor is
exactly the start value plus `n` tenths, strictly monotone in `n`, and is
unbounded — there is no upper cap. -/
theorem claim_C9_ease_growth (p : UserInstrumentProgress)
    (h : (1.3 : ℚ) ≤ p.ease_factor) :
    (∀ t1 t2 : ℤ,
      (update_progress p true t1 t2).ease_factor = p.ease_factor + 0.1) ∧
    (∀ n : ℕ, (gradeCorrectN p n).ease_factor = p.ease_factor + n * 0.1) ∧
    (∀ m n : ℕ, m < n →
      (gradeCorrectN p m).ease_factor < (gradeCorrectN p n).ease_factor) ∧
    (∀ B : ℚ, ∃ n : ℕ, B < (gradeCorrectN p n).ease_factor) := by
  refine ⟨fun t1 t2 => update_progress_ease_correct p t1 t2 h,
    gradeCorrectN_ease p h, ?_, ?_⟩
  · intro m n hmn
    rw [gradeCorrectN_ease p h, gradeCorrectN_ease p h]
    have : (m : ℚ) < n := by exact_mod_cast hmn
    nlinarith
  · intro B
    obtain ⟨n, hn⟩ := exists_nat_gt ((B - p.ease_factor) * 10)
    refine ⟨n, ?_⟩
    rw [gradeCorrectN_ease p h]
    nlinarith

/-- Witness for C9 at the default record. -/
theorem claim_C9_ease_growth_witness :
    (1.3 : ℚ) ≤ (defaultProgress "u" "i").ease_factor ∧
    ((∀ t1 t2 : ℤ,
      (update_progress (defaultProgress "u" "i") true t1 t2).ease_factor =
        (defaultProgress "u" "i").ease_factor + 0.1) ∧
    (∀ n : ℕ, (gradeCorrectN (defaultProgress "u" "i") n).ease_factor =
      (defaultProgress "u" "i").ease_factor + n * 0.1) ∧
    (∀ m n : ℕ, m < n →
      (gradeCorrectN (defaultProgress "u" "i") m).ease_factor <
        (gradeCorrectN (defaultProgress "u" "i") n).ease_factor) ∧
    (∀ B : ℚ, ∃ n : ℕ,
      B < (gradeCorrectN (defaultProgress "u" "i") n).ease_factor)) :=
  ⟨by norm_num [defaultProgress],
   claim_C9_ease_growth (defaultProgress "u" "i") (by norm_num [defaultProgress])⟩

/-- C10: from any record with `interval_days ≥ 1` and `ease_factor ≥ 1.3`,
either outcome yields `interval_days ≥ 1`, and `next_review_at` is at least
one day after each of the two grading clock reads (the second read not
earlier than the first) — so a just-graded item is never already due. -/
theorem claim_C10_never_due (p : UserInstrumentProgress) (c : Bool)
    (t1 t2 : ℤ) (hI : 1 ≤ p.interval_days)
    (hE : (1.3 : ℚ) ≤ p.ease_factor) (ht : t1 ≤ t2) :
    1 ≤ (update_progress p c t1 t2).interval_days ∧
    ∃ m, (update_progress p c t1 t2).next_review_at = some m ∧
      t1 + usPerDay ≤ m ∧ t2 + usPerDay ≤ m ∧ t1 < m ∧ t2 < m := by
  have hint : 1 ≤ (update_progress p c t1 t2).interval_days := by
    cases c with
    | false =>
        simp [update_progress]
    | true =>
        by_cases h1 : p.repetitions + 1 = 1
        · simp [update_progress, h1]
        · by_cases h2 : p.repetitions + 1 = 2
          · simp [update_progress, h1, h2]
          · have hq : (1 : ℚ) ≤ (p.interval_days : ℚ) * p.ease_factor := by
              have hI1 : (1 : ℚ) ≤ (p.interval_days : ℚ) := by exact_mod_cast hI
              nlinarith
            have hfl : 1 ≤ ⌊(p.interval_days : ℚ) * p.ease_factor⌋ :=
              Int.le_floor.mpr (by exact_mod_cast hq)
            have hpy : pyInt ((p.interval_days : ℚ) * p.ease_factor) =
                ⌊(p.interval_days : ℚ) * p.ease_factor⌋ := by
              rw [pyInt, if_neg (not_lt.mpr (by linarith))]
            have hcode : (update_progress p true t1 t2).interval_days =
                pyInt ((p.interval_days : ℚ) * p.ease_factor) := by
              simp [update_progress, h1, h2]
            rw [hcode, hpy]
            exact hfl
  refine ⟨hint, t2 + usPerDay * (update_progress p c t1 t2).interval_days,
    update_progress_next_review p c t1 t2, ?_, ?_, ?_, ?_⟩ <;>
    · have husc : (usPerDay : ℤ) = 86400000000 := rfl
      nlinarith [hint, ht, husc]

/-- Witness for C10 at the default record, correct outcome, both clock reads
at instant `0`. -/
theorem claim_C10_never_due_witness :
    1 ≤ (defaultProgress "u" "i").interval_days ∧
    (1.3 : ℚ) ≤ (defaultProgress "u" "i").ease_factor ∧ (0 : ℤ) ≤ 0 ∧
    (1 ≤ (update_progress (defaultProgress "u" "i") true 0 0).interval_days ∧
    ∃ m, (update_progress (defaultProgress "u" "i") true 0 0).next_review_at
        = some m ∧
      0 + usPerDay ≤ m ∧ 0 + usPerDay ≤ m ∧ (0 : ℤ) < m ∧ (0 : ℤ) < m) :=
  ⟨by norm_num [defaultProgress], by norm_num [defaultProgress], le_refl 0,
   claim_C10_never_due (defaultProgress "u" "i") true 0 0
     (by norm_num [defaultProgress]) (by norm_num [defaultProgress])
     (le_refl 0)⟩

end SurgicalPrep
